import Mathlib

/-!
# UDPConnection (src/udp.c): ownership and lifecycle

A shallow embedding of the UDP binding in `src/udp.c`.  The C functions become
state-passing functions over a `World`: the Python heap (reference counts and
values by address), the `UDPConnection` structs by address, the blocks handed
out by `PyMem_Malloc`, and logs of what the code does to the outside (requests
issued to libuv, blocks passed to `PyMem_Free`, user callables invoked, errors
reported as unraisable).

What the code cannot decide for itself is an argument of the call: whether
`PyMem_Malloc` succeeds, the status each libuv call returns, and what the
user's Python code does when called (`Ext.call`).  `NULL` is `none`.
`PyGILState_Ensure` and `PyGILState_Release` bracket every handler and have no
effect on the state modelled here.
-/

namespace PyUV

/-! ## Data model -/

/-- The value of a Python object, as far as `udp.c` looks at it. -/
inductive PyVal
  | none
  | int (n : Int)
  | str (s : String)
  | tuple (items : List Nat)
  | function
  | loop
  | object
  deriving DecidableEq, Repr

/-- The exception a function has set when it returns `NULL`. -/
inductive PyErr
  | UDPConnectionError (msg : String)
  | ValueError (msg : String)
  | TypeError (msg : String)
  | ArgumentError
  | NoMemory
  | UVException
  deriving DecidableEq, Repr

/-- Address families of a `struct sockaddr`. -/
inductive Family
  | AF_INET
  | AF_INET6
  | AF_UNSPEC
  deriving DecidableEq, Repr

/-- A socket address as the handlers read it: its family, its address bytes
and `ntohs` of its port. -/
structure sockaddr where
  sa_family : Family
  host : List Nat
  port : Nat
  deriving DecidableEq, Repr

/-- The fields of the `UDPConnection` object that `udp.c` reads and writes. -/
structure UDPConnection where
  initialized : Bool
  bound : Bool
  uv_udp_handle : Option Nat
  on_read_cb : Option Nat
  loop : Option Nat
  deriving DecidableEq, Repr

/-- The C struct `uv_buf_t`: `base` is the block, `len` its length. -/
structure uv_buf_t where
  base : Option Nat
  len : Nat
  deriving DecidableEq, Repr

/-- The C struct `udp_write_req_t` without its embedded `uv_udp_send_t`:
the text being sent, its length, and the `data` pointer. -/
structure udp_write_req_t where
  buf_base : String
  buf_len : Nat
  data : Option Nat
  deriving DecidableEq, Repr

/-- The C struct `udp_req_data_t`. -/
structure udp_req_data_t where
  obj : Option Nat
  callback : Option Nat
  deriving DecidableEq, Repr

/-- A call into libuv, as recorded in the request log. -/
inductive UvReq
  | udp_init (loop : Option Nat) (handle : Nat)
  | udp_bind (handle : Option Nat) (ip : String) (port : Int)
  | udp_bind6 (handle : Option Nat) (ip : String) (port : Int)
  | udp_recv_start (handle : Option Nat)
  | udp_recv_stop (handle : Option Nat)
  | udp_send (wr : Nat) (handle : Option Nat) (ip : String) (port : Int)
  | udp_send6 (wr : Nat) (handle : Option Nat) (ip : String) (port : Int)
  | close (handle : Nat)
  | udp_getsockname (handle : Option Nat)
  deriving DecidableEq, Repr

/-- The state the module runs in. -/
structure World where
  /-- The `ob_refcnt` of the Python object at each address. -/
  ob_refcnt : Nat → Int
  /-- The value of the Python object at each address. -/
  ob_val : Nat → PyVal
  /-- The `UDPConnection` struct at each address. -/
  conn : Nat → UDPConnection
  /-- The `data` field of the `uv_udp_t` at each address. -/
  handle_data : Nat → Option Nat
  /-- The `udp_write_req_t` at each address. -/
  wr_mem : Nat → udp_write_req_t
  /-- The `udp_req_data_t` at each address. -/
  req_mem : Nat → udp_req_data_t
  /-- The next address the allocators hand out. -/
  brk : Nat
  /-- Blocks passed to `PyMem_Free`, latest first. -/
  freed : List Nat
  /-- Calls into libuv, in order. -/
  reqs : List UvReq
  /-- Handles given to `uv_close` whose close callback has not run, in order. -/
  closing : List Nat
  /-- Invocations of Python callables: the callable and its arguments, in order. -/
  calls : List (Nat × List Nat)
  /-- Objects passed to `PyErr_WriteUnraisable`, in order. -/
  unraisable : List (Option Nat)

/-- What lies outside `udp.c`: the address parser of libc (`true` when
`inet_pton` returns 1), the address printers of libuv (`none` when they return
nonzero) and the user's Python code.  `call f args w` runs the callable at
`f`: it gives the object returned (`none` when it raises) and the state left
behind. -/
structure Ext where
  inet_pton4 : String → Bool
  inet_pton6 : String → Bool
  uv_ip4_name : sockaddr → Option String
  uv_ip6_name : sockaddr → Option String
  call : Nat → List Nat → World → Option Nat × World

/-- The address of the `None` singleton. -/
def Py_None : Nat := 0

/-- The C macro `UDP_MAX_BUF_SIZE`. -/
def UDP_MAX_BUF_SIZE : Nat := 65536

/-- Replace the value of a map at one address. -/
def upd {α : Type} (f : Nat → α) (a : Nat) (v : α) : Nat → α :=
  fun x => if x = a then v else f x

/-! ## The CPython and libuv primitives the code calls -/

/-- The CPython macro `Py_INCREF`. -/
def Py_INCREF (o : Nat) (w : World) : World :=
  { w with ob_refcnt := upd w.ob_refcnt o (w.ob_refcnt o + 1) }

/-- The CPython macro `Py_DECREF`. -/
def Py_DECREF (o : Nat) (w : World) : World :=
  { w with ob_refcnt := upd w.ob_refcnt o (w.ob_refcnt o - 1) }

/-- The CPython macro `Py_XDECREF`: nothing on `NULL`. -/
def Py_XDECREF (o : Option Nat) (w : World) : World :=
  match o with
  | none => w
  | some a => Py_DECREF a w

/-- The allocator `PyMem_Malloc`: a fresh block, or `NULL` when `ok` is false. -/
def PyMem_Malloc (ok : Bool) (w : World) : Option Nat × World :=
  if ok then (some w.brk, { w with brk := w.brk + 1 }) else (none, w)

/-- The deallocator `PyMem_Free`: nothing on `NULL`. -/
def PyMem_Free (p : Option Nat) (w : World) : World :=
  match p with
  | none => w
  | some a => { w with freed := a :: w.freed }

/-- A new Python object with one reference, owned by whoever created it.
Object creation is taken to succeed: the code never tests its result. -/
def newObject (v : PyVal) (w : World) : Nat × World :=
  (w.brk, { w with ob_val := upd w.ob_val w.brk v,
                   ob_refcnt := upd w.ob_refcnt w.brk 1,
                   brk := w.brk + 1 })

/-- The call `Py_BuildValue("(si)", s, i)` (and `"si"`, which builds the same
pair): a new tuple owning a new string and a new integer. -/
def Py_BuildValue_si (s : String) (i : Int) (w : World) : Nat × World :=
  let (a, w1) := newObject (.str s) w
  let (b, w2) := newObject (.int i) w1
  newObject (.tuple [a, b]) w2

/-- The call `PyString_FromStringAndSize(base, n)` on a buffer holding `buf`. -/
def PyString_FromStringAndSize (buf : List Char) (n : Nat) (w : World) : Nat × World :=
  newObject (.str (String.mk (buf.take n))) w

/-- The check `PyCallable_Check`. -/
def PyCallable_Check (w : World) (o : Nat) : Bool :=
  decide (w.ob_val o = PyVal.function)

/-- The call `PyObject_CallFunctionObjArgs(f, args..., NULL)`: the invocation
is logged, the user's code runs, and a returned object comes with a new
reference that the caller owns.  The references the call takes on its
arguments while it runs are given back before it returns. -/
def PyObject_CallFunctionObjArgs (E : Ext) (callable : Option Nat) (args : List Nat)
    (w : World) : Option Nat × World :=
  match callable with
  | none => (none, w)
  | some f =>
    let w1 := { w with calls := w.calls ++ [(f, args)] }
    match E.call f args w1 with
    | (some r, w2) => (some r, Py_INCREF r w2)
    | (none, w2) => (none, w2)

/-- The call `PyErr_WriteUnraisable`. -/
def PyErr_WriteUnraisable (o : Option Nat) (w : World) : World :=
  { w with unraisable := w.unraisable ++ [o] }

/-- The macro `Py_RETURN_NONE`: a new reference to `None`, for the caller. -/
def Py_RETURN_NONE (w : World) : Except PyErr Nat × World :=
  (.ok Py_None, Py_INCREF Py_None w)

/-- Whether `n` fits a C `int`. -/
def fitsInt (n : Int) : Bool :=
  decide (-2147483648 ≤ n ∧ n ≤ 2147483647)

/-- Whether a string holds no NUL byte.  The format `s` hands the code a C
string and refuses a Python string with a NUL inside. -/
def noNul (s : String) : Bool :=
  !(s.data.contains (Char.ofNat 0))

/-- The parse of a Python pair by the format `si`: a string without a NUL
byte and an integer that fits a C `int`. -/
def parse_si (w : World) (t : Nat) : Option (String × Int) :=
  match w.ob_val t with
  | .tuple [a, b] =>
    match w.ob_val a, w.ob_val b with
    | .str s, .int n => if noNul s && fitsInt n then some (s, n) else none
    | _, _ => none
  | _ => none

/-- The call `PyArg_ParseTuple(args, "(si):bind", ...)`. -/
def parse_bind (w : World) (args : Nat) : Option (String × Int) :=
  match w.ob_val args with
  | .tuple [t] => parse_si w t
  | _ => none

/-- The call `PyArg_ParseTuple(args, "O:start_reading", ...)`. -/
def parse_start_read (w : World) (args : Nat) : Option Nat :=
  match w.ob_val args with
  | .tuple [cb] => some cb
  | _ => none

/-- The call `PyArg_ParseTuple(args, "sO|O:write", ...)`: the data, a string
without a NUL byte, the address object, and the callback, which stays
`Py_None` when not given. -/
def parse_write (w : World) (args : Nat) : Option (String × Nat × Nat) :=
  match w.ob_val args with
  | .tuple [d, a] =>
    match w.ob_val d with
    | .str s => if noNul s then some (s, a, Py_None) else none
    | _ => none
  | .tuple [d, a, cb] =>
    match w.ob_val d with
    | .str s => if noNul s then some (s, a, cb) else none
    | _ => none
  | _ => none

/-- Record a call into libuv. -/
def uv (r : UvReq) (w : World) : World :=
  { w with reqs := w.reqs ++ [r] }

/-- The call `uv_close(handle, on_udp_close)`: the request is recorded and the
handle waits for its close callback. -/
def uv_close (handle : Nat) (w : World) : World :=
  { w with reqs := w.reqs ++ [UvReq.close handle], closing := w.closing ++ [handle] }

/-- Store a `UDPConnection` struct back at its address. -/
def setConn (self : Nat) (c : UDPConnection) (w : World) : World :=
  { w with conn := upd w.conn self c }

/-! ## The functions of `udp.c` -/

/-- Modelled from the spec: the `ASSERT` macro, whose definition is outside
`udp.c`, is a fatal internal assertion.  A handler whose assertion fails, or
that dereferences `NULL`, has no result: it returns `none`. -/
def ASSERT (c : Bool) : Option Unit :=
  if c then some () else none

/-- The close callback `on_udp_close`. -/
def on_udp_close (handle : Option Nat) (w : World) : Option World :=
  match handle with
  | none => none
  | some h =>
    match w.handle_data h with
    | none => none
    | some obj =>
      let w1 := Py_DECREF obj w
      let w2 := { w1 with handle_data := upd w1.handle_data h none }
      some (PyMem_Free (some h) w2)

/-- The allocation callback `on_udp_alloc`. -/
def on_udp_alloc (malloc_ok : Bool) (suggested_size : Nat) (w : World) :
    Option (uv_buf_t × World) :=
  match ASSERT (decide (suggested_size ≤ UDP_MAX_BUF_SIZE)) with
  | none => none
  | some _ =>
    let (p, w1) := PyMem_Malloc malloc_ok w
    some ({ base := p, len := suggested_size }, w1)

/-- The receive callback `on_udp_read`; `mem` is what the block `buf.base`
holds. -/
def on_udp_read (E : Ext) (handle : Option Nat) (nread : Int) (buf : uv_buf_t)
    (mem : List Char) (addr : Option sockaddr) (flags : Nat) (w : World) : Option World :=
  match handle with
  | none => none
  | some h =>
    match ASSERT (decide (flags = 0)) with
    | none => none
    | some _ =>
      match w.handle_data h with
      | none => none
      | some self =>
        let w1 := Py_INCREF self w
        let body : Option World :=
          if nread > 0 then
            match addr with
            | none => none
            | some a =>
              let built : Option (Nat × World) :=
                if a.sa_family = Family.AF_INET then
                  match E.uv_ip4_name a with
                  | none => none
                  | some ip4 => some (Py_BuildValue_si ip4 (a.port : Int) w1)
                else
                  match E.uv_ip6_name a with
                  | none => none
                  | some ip6 => some (Py_BuildValue_si ip6 (a.port : Int) w1)
              match built with
              | none => none
              | some (address_tuple, w2) =>
                let (data, w3) := PyString_FromStringAndSize mem nread.toNat w2
                let cb := (w3.conn self).on_read_cb
                let (result, w4) :=
                  PyObject_CallFunctionObjArgs E cb [self, address_tuple, data] w3
                let w5 :=
                  if result = none then PyErr_WriteUnraisable (w4.conn self).on_read_cb w4
                  else w4
                some (Py_XDECREF result w5)
          else
            match ASSERT (decide (addr = none)) with
            | none => none
            | some _ => some w1
        match body with
        | none => none
        | some w6 =>
          let w7 := PyMem_Free buf.base w6
          some (Py_DECREF self w7)

/-- The `error:` label of `UDPConnection_func_bind`. -/
def bind_error (self : Nat) (uv_udp_handle : Option Nat) (w : World) : World :=
  let w1 :=
    match uv_udp_handle with
    | some h => PyMem_Free (some h) { w with handle_data := upd w.handle_data h none }
    | none => w
  setConn self { w1.conn self with uv_udp_handle := none } w1

/-- The method `UDPConnection_func_bind`.  `malloc_ok` says whether
`PyMem_Malloc` succeeds, `r_init` and `r_bind` are what `uv_udp_init` and
`uv_udp_bind` (or `uv_udp_bind6`) return. -/
def UDPConnection_func_bind (E : Ext) (self args : Nat) (malloc_ok : Bool)
    (r_init r_bind : Int) (w : World) : Except PyErr Nat × World :=
  if (w.conn self).bound then
    (.error (.UDPConnectionError "already bound!"), w)
  else
    match parse_bind w args with
    | none => (.error .ArgumentError, w)
    | some (bind_ip, bind_port) =>
      if bind_port < 0 ∨ bind_port > 65536 then
        (.error (.ValueError "port must be between 0 and 65536"), w)
      else
        let address_type : Option Family :=
          if E.inet_pton4 bind_ip then some .AF_INET
          else if E.inet_pton6 bind_ip then some .AF_INET6
          else none
        match address_type with
        | none => (.error (.ValueError "invalid IP address"), w)
        | some address_type =>
          match PyMem_Malloc malloc_ok w with
          | (none, w1) => (.error .NoMemory, bind_error self none w1)
          | (some h, w1) =>
            let w2 := uv (.udp_init (w1.conn self).loop h) w1
            if r_init ≠ 0 then
              (.error .UVException, bind_error self (some h) w2)
            else
              let w3 := { w2 with handle_data := upd w2.handle_data h (some self) }
              let w4 := setConn self { w3.conn self with uv_udp_handle := some h } w3
              let w5 :=
                if address_type = .AF_INET then
                  uv (.udp_bind (w4.conn self).uv_udp_handle bind_ip bind_port) w4
                else
                  uv (.udp_bind6 (w4.conn self).uv_udp_handle bind_ip bind_port) w4
              if r_bind ≠ 0 then
                (.error .UVException, w5)
              else
                let w6 := setConn self { w5.conn self with bound := true } w5
                Py_RETURN_NONE (Py_INCREF self w6)

/-- The method `UDPConnection_func_start_read`; `r` is what
`uv_udp_recv_start` returns. -/
def UDPConnection_func_start_read (self args : Nat) (r : Int) (w : World) :
    Except PyErr Nat × World :=
  if !(w.conn self).bound then
    (.error (.UDPConnectionError "not bound"), w)
  else
    match parse_start_read w args with
    | none => (.error .ArgumentError, w)
    | some callback =>
      if !PyCallable_Check w callback then
        (.error (.TypeError "a callable is required"), w)
      else
        let tmp := (w.conn self).on_read_cb
        let w1 := Py_INCREF callback w
        let w2 := setConn self { w1.conn self with on_read_cb := some callback } w1
        let w3 := Py_XDECREF tmp w2
        let w4 := uv (.udp_recv_start (w3.conn self).uv_udp_handle) w3
        if r ≠ 0 then
          (.error .UVException, Py_DECREF callback w4)
        else
          Py_RETURN_NONE w4

/-- The method `UDPConnection_func_stop_read`; `r` is what `uv_udp_recv_stop`
returns. -/
def UDPConnection_func_stop_read (self : Nat) (r : Int) (w : World) :
    Except PyErr Nat × World :=
  if !(w.conn self).bound then
    (.error (.UDPConnectionError "not bound"), w)
  else
    let w1 := uv (.udp_recv_stop (w.conn self).uv_udp_handle) w
    if r ≠ 0 then (.error .UVException, w1) else Py_RETURN_NONE w1

/-- The `error:` label of `UDPConnection_func_write`. -/
def write_error (callback : Nat) (req_data wr : Option Nat) (w : World) : World :=
  let w1 :=
    match req_data with
    | some rd =>
      let w2 := Py_DECREF callback w
      PyMem_Free (some rd)
        { w2 with req_mem := upd w2.req_mem rd { obj := none, callback := none } }
    | none => w
  match wr with
  | some a => PyMem_Free (some a) { w1 with wr_mem := upd w1.wr_mem a { w1.wr_mem a with data := none } }
  | none => w1

/-- The method `UDPConnection_func_write`.  `wr_ok` and `rd_ok` say whether
the two `PyMem_Malloc` calls succeed, `r` is what `uv_udp_send` (or
`uv_udp_send6`) returns.  A Python 2 string is a byte string, so `strlen` of
the data is its length. -/
def UDPConnection_func_write (E : Ext) (self args : Nat) (wr_ok rd_ok : Bool) (r : Int)
    (w : World) : Except PyErr Nat × World :=
  match parse_write w args with
  | none => (.error .ArgumentError, w)
  | some (write_data, address_tuple, callback) =>
    if callback ≠ Py_None ∧ !PyCallable_Check w callback then
      (.error (.TypeError "a callable or None is required"), w)
    else
      match parse_si w address_tuple with
      | none => (.error .ArgumentError, w)
      | some (dest_ip, dest_port) =>
        if dest_port < 0 ∨ dest_port > 65536 then
          (.error (.ValueError "port must be between 0 and 65536"), w)
        else
          let address_type : Option Family :=
            if E.inet_pton4 dest_ip then some .AF_INET
            else if E.inet_pton6 dest_ip then some .AF_INET6
            else none
          match address_type with
          | none => (.error (.ValueError "invalid IP address"), w)
          | some address_type =>
            match PyMem_Malloc wr_ok w with
            | (none, w1) => (.error .NoMemory, write_error callback none none w1)
            | (some wr, w1) =>
              match PyMem_Malloc rd_ok w1 with
              | (none, w2) => (.error .NoMemory, write_error callback none (some wr) w2)
              | (some req_data, w2) =>
                let buffered : udp_write_req_t :=
                  { w2.wr_mem wr with buf_base := write_data, buf_len := write_data.length }
                let w3 := { w2 with wr_mem := upd w2.wr_mem wr buffered }
                let w4 := Py_INCREF callback w3
                let filled : udp_req_data_t := { obj := some self, callback := some callback }
                let w5 := { w4 with req_mem := upd w4.req_mem req_data filled }
                let linked : udp_write_req_t := { w5.wr_mem wr with data := some req_data }
                let w6 := { w5 with wr_mem := upd w5.wr_mem wr linked }
                let w7 :=
                  if address_type = .AF_INET then
                    uv (.udp_send wr (w6.conn self).uv_udp_handle dest_ip dest_port) w6
                  else
                    uv (.udp_send6 wr (w6.conn self).uv_udp_handle dest_ip dest_port) w6
                if r ≠ 0 then
                  (.error .UVException, write_error callback (some req_data) (some wr) w7)
                else
                  Py_RETURN_NONE w7

/-- The method `UDPConnection_func_close`. -/
def UDPConnection_func_close (self : Nat) (w : World) : Except PyErr Nat × World :=
  let w1 := setConn self { w.conn self with bound := false } w
  let w2 :=
    match (w1.conn self).uv_udp_handle with
    | some h => uv_close h w1
    | none => w1
  Py_RETURN_NONE w2

/-- The method `UDPConnection_func_getsockname`; `r` is what
`uv_udp_getsockname` returns and `sockname` what it stores.  The result is
`none` when an assertion fails. -/
def UDPConnection_func_getsockname (E : Ext) (self : Nat) (r : Int) (sockname : sockaddr)
    (w : World) : Option (Except PyErr Nat × World) :=
  if !(w.conn self).bound then
    some (.error (.UDPConnectionError "not bound"), w)
  else
    let w1 := uv (.udp_getsockname (w.conn self).uv_udp_handle) w
    if r ≠ 0 then
      some (.error .UVException, w1)
    else if sockname.sa_family = Family.AF_INET then
      match E.uv_ip4_name sockname with
      | none => none
      | some ip4 =>
        let (t, w2) := Py_BuildValue_si ip4 (sockname.port : Int) w1
        some (.ok t, w2)
    else if sockname.sa_family = Family.AF_INET6 then
      match E.uv_ip6_name sockname with
      | none => none
      | some ip6 =>
        let (t, w2) := Py_BuildValue_si ip6 (sockname.port : Int) w1
        some (.ok t, w2)
    else
      some (.error (.UDPConnectionError "unknown address type detected"), w1)

/-- The call `PyArg_ParseTuple(args, "O!:__init__", &LoopType, &loop)`. -/
def parse_init (w : World) (args : Nat) : Option Nat :=
  match w.ob_val args with
  | .tuple [l] => if w.ob_val l = PyVal.loop then some l else none
  | _ => none

/-- The initialiser `UDPConnection_tp_init`: `.ok ()` is the return value 0,
an error the return value -1. -/
def UDPConnection_tp_init (self args : Nat) (w : World) : Except PyErr Unit × World :=
  if (w.conn self).initialized then
    (.error (.UDPConnectionError "Object already initialized"), w)
  else
    match parse_init w args with
    | none => (.error .ArgumentError, w)
    | some loop =>
      let tmp := (w.conn self).loop
      let w1 := Py_INCREF loop w
      let w2 := setConn self { w1.conn self with loop := some loop } w1
      let w3 := Py_XDECREF tmp w2
      let w4 := setConn self { w3.conn self with initialized := true } w3
      let w5 := setConn self { w4.conn self with bound := false } w4
      let w6 := setConn self { w5.conn self with uv_udp_handle := none } w5
      (.ok (), w6)

/-! ## Sequences of calls and notifications -/

/-- One event in the life of a connection: a method call together with the
outcome of what it calls outside the module, or the loop running the close
callback of the handle that has waited longest. -/
inductive Op
  | bind (args : Nat) (malloc_ok : Bool) (r_init r_bind : Int)
  | start_read (args : Nat) (r : Int)
  | stop_read (r : Int)
  | write (args : Nat) (wr_ok rd_ok : Bool) (r : Int)
  | close
  | getsockname (r : Int) (sockname : sockaddr)
  | close_done
  deriving DecidableEq, Repr

/-- The state after one event on the connection at `self`; `none` when the
process aborts or no handle waits for its close callback. -/
def step (E : Ext) (self : Nat) (w : World) : Op → Option World
  | .bind args malloc_ok r_init r_bind =>
    some (UDPConnection_func_bind E self args malloc_ok r_init r_bind w).2
  | .start_read args r => some (UDPConnection_func_start_read self args r w).2
  | .stop_read r => some (UDPConnection_func_stop_read self r w).2
  | .write args wr_ok rd_ok r => some (UDPConnection_func_write E self args wr_ok rd_ok r w).2
  | .close => some (UDPConnection_func_close self w).2
  | .getsockname r sockname =>
    (UDPConnection_func_getsockname E self r sockname w).map Prod.snd
  | .close_done =>
    match w.closing with
    | [] => none
    | h :: rest => on_udp_close (some h) { w with closing := rest }

/-- The state after a sequence of events, `none` once one of them has no
result. -/
def run (E : Ext) (self : Nat) (w : World) : List Op → Option World
  | [] => some w
  | op :: ops =>
    match step E self w op with
    | none => none
    | some w1 => run E self w1 ops

/-! ## Predicates the properties are stated with -/

/-- The part of the lifecycle invariant that the code keeps: a bound
connection has a handle. -/
def HandleWhenBound (self : Nat) (w : World) : Prop :=
  (w.conn self).bound = true → (w.conn self).uv_udp_handle ≠ none

/-- Whether an event is a call of `bind`. -/
def Op.isBind : Op → Bool
  | .bind _ _ _ _ => true
  | _ => false

/-- The objects of the example heap: the connection at 1, its loop at 2, and
the argument tuples of the calls made on it. -/
def exampleVal : Nat → PyVal
  | 0 => .none
  | 1 => .object
  | 2 => .loop
  | 3 => .tuple [2]
  | 4 => .str "127.0.0.1"
  | 5 => .int 8000
  | 6 => .tuple [4, 5]
  | 7 => .tuple [6]
  | 8 => .function
  | 9 => .tuple [8]
  | 10 => .str "hello"
  | 11 => .tuple [10, 6, 8]
  | 12 => .int 65536
  | 13 => .tuple [4, 12]
  | 14 => .tuple [13]
  | 15 => .tuple [10, 13]
  | 16 => .tuple [10, 6]
  | _ => .object

/-- The example heap before the connection at 1 is initialised: every object
has one reference and the allocators start at address 100. -/
def exampleWorld : World :=
  { ob_refcnt := fun _ => 1
    ob_val := exampleVal
    conn := fun _ =>
      { initialized := false, bound := false, uv_udp_handle := none,
        on_read_cb := none, loop := none }
    handle_data := fun _ => none
    wr_mem := fun _ => { buf_base := "", buf_len := 0, data := none }
    req_mem := fun _ => { obj := none, callback := none }
    brk := 100
    freed := []
    reqs := []
    closing := []
    calls := []
    unraisable := [] }

/-- An environment for the example heap: `127.0.0.1` is the IPv4 address the
parser accepts, `::1` the IPv6 one, and user code returns `None` and touches
nothing. -/
def exampleExt : Ext :=
  { inet_pton4 := fun s => decide (s = "127.0.0.1")
    inet_pton6 := fun s => decide (s = "::1")
    uv_ip4_name := fun _ => some "127.0.0.1"
    uv_ip6_name := fun _ => some "::1"
    call := fun _ _ w => (some Py_None, w) }

/-- The example environment with user code that raises. -/
def raisingExt : Ext :=
  { exampleExt with call := fun _ _ w => (none, w) }

/-- The example heap after `UDPConnection_tp_init` on the connection at 1. -/
def freshWorld : World :=
  (UDPConnection_tp_init 1 3 exampleWorld).2

/-- The example heap after a successful `bind(("127.0.0.1", 8000))`. -/
def boundWorld : World :=
  (UDPConnection_func_bind exampleExt 1 7 true 0 0 freshWorld).2

/-- The example heap after a successful `start_read(cb)` with the callable
at 8 on the bound connection. -/
def readingWorld : World :=
  (UDPConnection_func_start_read 1 9 0 boundWorld).2

/-- The sender of the example datagram. -/
def exampleSender : sockaddr :=
  { sa_family := Family.AF_INET, host := [127, 0, 0, 1], port := 4242 }

/-- One datagram of five bytes delivered to the reading connection: the loop
asks `on_udp_alloc` for a buffer and hands it to `on_udp_read`. -/
def exampleDatagram (E : Ext) : Option World :=
  match on_udp_alloc true 65536 readingWorld with
  | none => none
  | some (buf, w) =>
    on_udp_read E (some 100) 5 buf ['h', 'e', 'l', 'l', 'o'] (some exampleSender) 0 w

end PyUV

namespace PyUV

/-! ## Evaluations of the code on the example heap -/

/-- C2, evaluated at the failing input: on the freshly initialised connection
`bind(("127.0.0.1", 8000))` in which `uv_udp_bind` returns -1 reports the loop
error and returns with the connection unbound, yet the handle allocated by the
call (block 100) is still stored in the connection and has not been freed.
When `uv_udp_init` fails instead, the same handle is freed and the field is
`NULL`. -/
theorem bind_failed_uv_bind_keeps_handle :
    (freshWorld.conn 1).uv_udp_handle = none ∧
    (UDPConnection_func_bind exampleExt 1 7 true 0 (-1) freshWorld).1
      = .error .UVException ∧
    ((UDPConnection_func_bind exampleExt 1 7 true 0 (-1) freshWorld).2.conn 1).bound
      = false ∧
    ((UDPConnection_func_bind exampleExt 1 7 true 0 (-1) freshWorld).2.conn 1).uv_udp_handle
      = some 100 ∧
    (UDPConnection_func_bind exampleExt 1 7 true 0 (-1) freshWorld).2.freed = [] ∧
    ((UDPConnection_func_bind exampleExt 1 7 true (-1) 0 freshWorld).2.conn 1).uv_udp_handle
      = none ∧
    (UDPConnection_func_bind exampleExt 1 7 true (-1) 0 freshWorld).2.freed = [100] := by
  refine ⟨by decide, by rfl, by decide, by decide, by decide, by decide, by decide⟩

/-- C4, evaluated at the failing input: after a successful bind, two calls of
`close()` issue two `uv_close` requests on the same handle (block 100), and so
does a second `close()` made after the close callback has run and freed the
handle. -/
theorem close_twice_issues_two_uv_close :
    (run exampleExt 1 freshWorld [.bind 7 true 0 0, .close, .close]).map
        (fun w => w.reqs.count (UvReq.close 100)) = some 2 ∧
    (run exampleExt 1 freshWorld [.bind 7 true 0 0, .close, .close_done, .close]).map
        (fun w => (w.reqs.count (UvReq.close 100), w.freed)) = some (2, [100]) := by
  refine ⟨by decide, by decide⟩

/-- C5, evaluated at the failing input: `bind(("127.0.0.1", 65536))` on the
freshly initialised connection passes the port check, allocates a handle and
binds; `write("hello", ("127.0.0.1", 65536))` passes it too, allocates the two
records of a PendingOperation and issues the send. -/
theorem port_65536_is_accepted :
    (UDPConnection_func_bind exampleExt 1 14 true 0 0 freshWorld).1 = .ok Py_None ∧
    ((UDPConnection_func_bind exampleExt 1 14 true 0 0 freshWorld).2.conn 1).bound = true ∧
    (UDPConnection_func_bind exampleExt 1 14 true 0 0 freshWorld).2.reqs
      = [.udp_init (some 2) 100, .udp_bind (some 100) "127.0.0.1" 65536] ∧
    (UDPConnection_func_write exampleExt 1 15 true true 0 boundWorld).1 = .ok Py_None ∧
    (UDPConnection_func_write exampleExt 1 15 true true 0 boundWorld).2.brk
      = boundWorld.brk + 2 ∧
    (UDPConnection_func_write exampleExt 1 15 true true 0 boundWorld).2.reqs
      = boundWorld.reqs ++ [.udp_send 101 (some 100) "127.0.0.1" 65536] := by
  refine ⟨by rfl, by decide, by decide, by rfl, by decide, by decide⟩

/-- C6, evaluated at the failing input: on the bound connection, which has no
read callback, `start_read(cb)` in which `uv_udp_recv_start` returns -1 reports
the loop error and gives `cb` its reference count back, yet the connection
returns holding `cb` in its read-callback field. -/
theorem start_read_failure_keeps_callback :
    (boundWorld.conn 1).bound = true ∧
    (boundWorld.conn 1).on_read_cb = none ∧
    (UDPConnection_func_start_read 1 9 (-1) boundWorld).1 = .error .UVException ∧
    (UDPConnection_func_start_read 1 9 (-1) boundWorld).2.ob_refcnt 8
      = boundWorld.ob_refcnt 8 ∧
    ((UDPConnection_func_start_read 1 9 (-1) boundWorld).2.conn 1).on_read_cb = some 8 := by
  refine ⟨by decide, by decide, by rfl, by decide, by decide⟩

/-- C10, evaluated at the failing input: one datagram of five bytes delivered
to the reading connection.  The handler returns, the callable at 8 has been
called once with the connection, the address tuple (object 104) and the
payload (object 105), and the connection's reference count is what it was;
the address tuple and the payload still carry the reference the handler
created them with, whether the callable returns or raises. -/
theorem on_udp_read_keeps_temporaries :
    (exampleDatagram exampleExt).map
        (fun w => (w.calls, w.ob_refcnt 1 - readingWorld.ob_refcnt 1,
                   w.ob_val 104, w.ob_refcnt 104, w.ob_val 105, w.ob_refcnt 105))
      = some ([(8, [1, 104, 105])], 0, .tuple [102, 103], 1, .str "hello", 1) ∧
    (exampleDatagram raisingExt).map
        (fun w => (w.calls, w.ob_refcnt 1 - readingWorld.ob_refcnt 1,
                   w.ob_val 104, w.ob_refcnt 104, w.ob_val 105, w.ob_refcnt 105))
      = some ([(8, [1, 104, 105])], 0, .tuple [102, 103], 1, .str "hello", 1) := by
  refine ⟨by decide, by decide⟩

/-- C1, counterexample: after a successful bind and a call of `close()` the
connection is not bound and its handle field is not `NULL`. -/
theorem handle_without_bound_after_close :
    (run exampleExt 1 freshWorld [.bind 7 true 0 0, .close]).map
        (fun w => ((w.conn 1).bound, (w.conn 1).uv_udp_handle)) = some (false, some 100) := by
  decide

/-- C3, counterexample: after a successful bind and a call of `close()`, a
further `bind(("127.0.0.1", 8000))` succeeds: it issues `uv_udp_init` and
`uv_udp_bind` for a new handle and leaves the connection bound. -/
theorem bind_after_close_binds_again :
    (UDPConnection_func_bind exampleExt 1 7 true 0 0
        (UDPConnection_func_close 1 boundWorld).2).1 = .ok Py_None ∧
    (UDPConnection_func_bind exampleExt 1 7 true 0 0
        (UDPConnection_func_close 1 boundWorld).2).2.reqs
      = (UDPConnection_func_close 1 boundWorld).2.reqs ++
          [.udp_init (some 2) 101, .udp_bind (some 101) "127.0.0.1" 8000] ∧
    ((UDPConnection_func_bind exampleExt 1 7 true 0 0
        (UDPConnection_func_close 1 boundWorld).2).2.conn 1).bound = true := by
  refine ⟨by rfl, by decide, by decide⟩

/-! ## How each function moves the state -/

/-- Every path through `bind` keeps `HandleWhenBound`. -/
theorem bind_keeps_handle_when_bound (E : Ext) (self args : Nat) (malloc_ok : Bool)
    (r_init r_bind : Int) (w : World) (h : HandleWhenBound self w) :
    HandleWhenBound self (UDPConnection_func_bind E self args malloc_ok r_init r_bind w).2 := by
  unfold UDPConnection_func_bind
  by_cases hb : (w.conn self).bound = true
  · simpa [hb] using h
  · simp only [hb]
    cases hp : parse_bind w args with
    | none => simpa using h
    | some p =>
      obtain ⟨bind_ip, bind_port⟩ := p
      by_cases hport : bind_port < 0 ∨ bind_port > 65536
      · simpa [hport] using h
      · cases h4 : E.inet_pton4 bind_ip <;> cases h6 : E.inet_pton6 bind_ip <;>
          cases malloc_ok <;> by_cases hi : r_init = 0 <;> by_cases hr : r_bind = 0 <;>
          simp [HandleWhenBound, hport, h4, h6, hi, hr, PyMem_Malloc, bind_error, setConn, upd,
            uv, Py_RETURN_NONE, Py_INCREF, PyMem_Free] <;>
          first | done | exact h | simpa using hb

/-- The method `start_read` changes neither `bound` nor the handle field. -/
theorem start_read_conn (self args : Nat) (r : Int) (w : World) :
    ((UDPConnection_func_start_read self args r w).2.conn self).bound = (w.conn self).bound ∧
    ((UDPConnection_func_start_read self args r w).2.conn self).uv_udp_handle
      = (w.conn self).uv_udp_handle := by
  unfold UDPConnection_func_start_read
  cases hb : (w.conn self).bound
  · simp [hb]
  · cases hp : parse_start_read w args with
    | none => simp [hb]
    | some callback =>
      cases hc : PyCallable_Check w callback
      · simp [hb, hc]
      · by_cases hr : r = 0 <;> cases ht : (w.conn self).on_read_cb <;>
          simp [hb, hc, hr, ht, setConn, upd, uv, Py_RETURN_NONE, Py_INCREF, Py_DECREF,
            Py_XDECREF]

/-- The method `stop_read` changes no connection. -/
theorem stop_read_conn (self : Nat) (r : Int) (w : World) :
    (UDPConnection_func_stop_read self r w).2.conn = w.conn := by
  unfold UDPConnection_func_stop_read
  cases hb : (w.conn self).bound <;> by_cases hr : r = 0 <;>
    simp [hb, hr, uv, Py_RETURN_NONE, Py_INCREF]

/-- The `error:` label of `write` changes no connection. -/
theorem write_error_conn (callback : Nat) (req_data wr : Option Nat) (w : World) :
    (write_error callback req_data wr w).conn = w.conn := by
  cases req_data <;> cases wr <;> simp [write_error, PyMem_Free, Py_DECREF]

/-- The method `write` changes no connection. -/
theorem write_conn (E : Ext) (self args : Nat) (wr_ok rd_ok : Bool) (r : Int) (w : World) :
    (UDPConnection_func_write E self args wr_ok rd_ok r w).2.conn = w.conn := by
  unfold UDPConnection_func_write
  cases hp : parse_write w args with
  | none => rfl
  | some p =>
    obtain ⟨write_data, address_tuple, callback⟩ := p
    simp only []
    by_cases hc : callback ≠ Py_None ∧ (!PyCallable_Check w callback) = true
    · rw [if_pos hc]
    · rw [if_neg hc]
      cases ha : parse_si w address_tuple with
      | none => rfl
      | some q =>
        obtain ⟨dest_ip, dest_port⟩ := q
        simp only []
        by_cases hport : dest_port < 0 ∨ dest_port > 65536
        · rw [if_pos hport]
        · rw [if_neg hport]
          cases h4 : E.inet_pton4 dest_ip <;> cases h6 : E.inet_pton6 dest_ip <;>
            cases wr_ok <;> cases rd_ok <;> by_cases hr : r = 0 <;>
            simp [hr, PyMem_Malloc, write_error_conn, uv, Py_RETURN_NONE, Py_INCREF]

/-- The method `close` clears `bound` and keeps the handle field. -/
theorem close_conn (self : Nat) (w : World) :
    ((UDPConnection_func_close self w).2.conn self).bound = false ∧
    ((UDPConnection_func_close self w).2.conn self).uv_udp_handle
      = (w.conn self).uv_udp_handle := by
  unfold UDPConnection_func_close
  cases hh : (w.conn self).uv_udp_handle <;>
    simp [hh, setConn, upd, uv_close, Py_RETURN_NONE, Py_INCREF]

/-- The method `getsockname` changes no connection. -/
theorem getsockname_conn (E : Ext) (self : Nat) (r : Int) (sockname : sockaddr)
    (w : World) (out : Except PyErr Nat × World)
    (h : UDPConnection_func_getsockname E self r sockname w = some out) :
    out.2.conn = w.conn := by
  unfold UDPConnection_func_getsockname at h
  cases hb : (w.conn self).bound
  · simp [hb] at h; simp [← h]
  · by_cases hr : r = 0
    · by_cases h4 : sockname.sa_family = Family.AF_INET
      · cases hn : E.uv_ip4_name sockname <;> simp [hb, hr, h4, hn] at h
        simp [← h, Py_BuildValue_si, newObject, uv]
      · by_cases h6 : sockname.sa_family = Family.AF_INET6
        · cases hn : E.uv_ip6_name sockname <;> simp [hb, hr, h4, h6, hn] at h
          simp [← h, Py_BuildValue_si, newObject, uv]
        · simp [hb, hr, h4, h6] at h; simp [← h, uv]
    · simp [hb, hr] at h; simp [← h, uv]

/-- The close callback changes no connection. -/
theorem on_udp_close_conn (handle : Option Nat) (w w1 : World)
    (h : on_udp_close handle w = some w1) : w1.conn = w.conn := by
  unfold on_udp_close at h
  cases handle with
  | none => simp at h
  | some a =>
    cases hd : w.handle_data a <;> simp [hd] at h
    simp [← h, PyMem_Free, Py_DECREF]

/-- An event other than a call of `bind` leaves the handle field alone and
never makes the connection bound. -/
theorem step_other_than_bind (E : Ext) (self : Nat) (w w1 : World) (op : Op)
    (hop : op.isBind = false) (h : step E self w op = some w1) :
    (w1.conn self).uv_udp_handle = (w.conn self).uv_udp_handle ∧
    ((w.conn self).bound = false → (w1.conn self).bound = false) := by
  cases op with
  | bind args malloc_ok r_init r_bind => simp [Op.isBind] at hop
  | start_read args r =>
    simp only [step, Option.some.injEq] at h
    subst h
    exact ⟨(start_read_conn self args r w).2, fun hb => by rw [(start_read_conn self args r w).1, hb]⟩
  | stop_read r =>
    simp only [step, Option.some.injEq] at h
    subst h
    rw [stop_read_conn]; exact ⟨rfl, id⟩
  | write args wr_ok rd_ok r =>
    simp only [step, Option.some.injEq] at h
    subst h
    rw [write_conn]; exact ⟨rfl, id⟩
  | close =>
    simp only [step, Option.some.injEq] at h
    subst h
    exact ⟨(close_conn self w).2, fun _ => (close_conn self w).1⟩
  | getsockname r sockname =>
    simp only [step, Option.map_eq_some'] at h
    obtain ⟨out, hout, rfl⟩ := h
    rw [getsockname_conn E self r sockname w out hout]; exact ⟨rfl, id⟩
  | close_done =>
    simp only [step] at h
    cases hc : w.closing with
    | nil => simp [hc] at h
    | cons a rest =>
      simp only [hc] at h
      rw [on_udp_close_conn _ _ _ h]; exact ⟨rfl, id⟩

/-- Every event keeps `HandleWhenBound`. -/
theorem step_keeps_handle_when_bound (E : Ext) (self : Nat) (w w1 : World) (op : Op)
    (hinv : HandleWhenBound self w) (h : step E self w op = some w1) :
    HandleWhenBound self w1 := by
  cases hop : op.isBind
  · obtain ⟨hh, hb⟩ := step_other_than_bind E self w w1 op hop h
    intro hb1
    rw [hh]
    apply hinv
    cases hw : (w.conn self).bound
    · rw [hb hw] at hb1; cases hb1
    · rfl
  · cases op <;> simp [Op.isBind] at hop
    simp only [step, Option.some.injEq] at h
    subst h
    exact bind_keeps_handle_when_bound E self _ _ _ _ w hinv

/-- Every sequence of events keeps `HandleWhenBound`. -/
theorem run_keeps_handle_when_bound (E : Ext) (self : Nat) (ops : List Op) :
    ∀ w w1 : World, HandleWhenBound self w → run E self w ops = some w1 →
      HandleWhenBound self w1 := by
  induction ops with
  | nil =>
    intro w w1 hinv h
    simp only [run, Option.some.injEq] at h
    subst h; exact hinv
  | cons op ops ih =>
    intro w w1 hinv h
    simp only [run] at h
    cases hs : step E self w op with
    | none => simp [hs] at h
    | some w2 =>
      simp only [hs] at h
      exact ih w2 w1 (step_keeps_handle_when_bound E self w w2 op hinv hs) h

/-- A connection that `UDPConnection_tp_init` has initialised is not bound. -/
theorem tp_init_unbound (self args : Nat) (w w1 : World)
    (h : UDPConnection_tp_init self args w = (.ok (), w1)) :
    (w1.conn self).bound = false := by
  unfold UDPConnection_tp_init at h
  cases hi : (w.conn self).initialized
  · cases hp : parse_init w args with
    | none => simp [hi, hp] at h
    | some loop =>
      simp only [hi, hp] at h
      have h2 := (Prod.mk.inj h).2
      rw [← h2]
      simp [setConn, upd]
  · simp [hi] at h

/-- C1, as the code keeps it: in every state reached from a freshly
initialised connection by a sequence of bind, start_read, stop_read, write,
close and getsockname calls, each with any outcome, and close-completion
notifications, a connection that is bound has a handle that is not `NULL`. -/
theorem bound_connection_has_handle (E : Ext) (self args : Nat) (w0 w1 w : World)
    (ops : List Op) (hinit : UDPConnection_tp_init self args w0 = (.ok (), w1))
    (hrun : run E self w1 ops = some w) :
    (w.conn self).bound = true → (w.conn self).uv_udp_handle ≠ none := by
  have h0 : HandleWhenBound self w1 := by
    intro hb
    rw [tp_init_unbound self args w0 w1 hinit] at hb
    cases hb
  exact run_keeps_handle_when_bound E self ops w1 w h0 hrun

/-- C8: on a connection that is bound, `bind` with any argument and any
outcome of the calls it would make returns the already-bound error and the
state it returns is the state it was given: `bound`, the handle, the read
callback, every reference count and the request log are untouched. -/
theorem bind_on_bound_is_rejected (E : Ext) (self args : Nat) (malloc_ok : Bool)
    (r_init r_bind : Int) (w : World) (hbound : (w.conn self).bound = true) :
    UDPConnection_func_bind E self args malloc_ok r_init r_bind w
      = (.error (.UDPConnectionError "already bound!"), w) := by
  simp [UDPConnection_func_bind, hbound]

/-- C8, witness: the bound example connection rejects a second bind. -/
theorem bind_on_bound_is_rejected_witness :
    (boundWorld.conn 1).bound = true ∧
    UDPConnection_func_bind exampleExt 1 7 true 0 0 boundWorld
      = (.error (.UDPConnectionError "already bound!"), boundWorld) :=
  ⟨by decide, bind_on_bound_is_rejected exampleExt 1 7 true 0 0 boundWorld (by decide)⟩

/-- C1, witness: the example connection, initialised and then bound, is
bound and has a handle. -/
theorem bound_connection_has_handle_witness :
    UDPConnection_tp_init 1 3 exampleWorld = (.ok (), freshWorld) ∧
    run exampleExt 1 freshWorld [.bind 7 true 0 0] = some boundWorld ∧
    (boundWorld.conn 1).bound = true ∧
    (boundWorld.conn 1).uv_udp_handle ≠ none :=
  ⟨rfl, rfl, by decide,
    bound_connection_has_handle exampleExt 1 3 exampleWorld freshWorld boundWorld
      [.bind 7 true 0 0] rfl rfl (by decide)⟩

/-- Events other than calls of `bind` keep an unbound connection unbound. -/
theorem run_stays_unbound (E : Ext) (self : Nat) (ops : List Op) :
    ∀ w w1 : World, (∀ op ∈ ops, op.isBind = false) → (w.conn self).bound = false →
      run E self w ops = some w1 → (w1.conn self).bound = false := by
  induction ops with
  | nil =>
    intro w w1 _ hb h
    simp only [run, Option.some.injEq] at h
    subst h; exact hb
  | cons op ops ih =>
    intro w w1 hops hb h
    simp only [run] at h
    cases hs : step E self w op with
    | none => simp [hs] at h
    | some w2 =>
      simp only [hs] at h
      have hop : op.isBind = false := hops op (List.mem_cons_self op ops)
      have hb2 := (step_other_than_bind E self w w2 op hop hs).2 hb
      exact ih w2 w1 (fun o ho => hops o (List.mem_cons_of_mem op ho)) hb2 h

/-- C3, as the code keeps it: after `close()` on a connection in any state,
and after any further events on it none of which is a call of `bind`, every
call of `start_read` and of `getsockname` returns the not-bound error and
returns the state it was given, so it issues no request to the loop. -/
theorem not_bound_after_close (E : Ext) (self : Nat) (w w1 : World) (ops : List Op)
    (hops : ∀ op ∈ ops, op.isBind = false)
    (hrun : run E self (UDPConnection_func_close self w).2 ops = some w1) :
    (∀ args r, UDPConnection_func_start_read self args r w1
      = (.error (.UDPConnectionError "not bound"), w1)) ∧
    (∀ r sockname, UDPConnection_func_getsockname E self r sockname w1
      = some (.error (.UDPConnectionError "not bound"), w1)) := by
  have hb : (w1.conn self).bound = false :=
    run_stays_unbound E self ops _ w1 hops (close_conn self w).1 hrun
  constructor
  · intro args r
    simp [UDPConnection_func_start_read, hb]
  · intro r sockname
    simp [UDPConnection_func_getsockname, hb]

/-- C3, witness: the bound example connection is closed and then written to;
`start_read` and `getsockname` on the state this leaves return the not-bound
error and that same state. -/
theorem not_bound_after_close_witness :
    UDPConnection_func_start_read 1 9 0
        (UDPConnection_func_write exampleExt 1 16 true true 0
          (UDPConnection_func_close 1 boundWorld).2).2
      = (.error (.UDPConnectionError "not bound"),
          (UDPConnection_func_write exampleExt 1 16 true true 0
            (UDPConnection_func_close 1 boundWorld).2).2) ∧
    UDPConnection_func_getsockname exampleExt 1 0 exampleSender
        (UDPConnection_func_write exampleExt 1 16 true true 0
          (UDPConnection_func_close 1 boundWorld).2).2
      = some (.error (.UDPConnectionError "not bound"),
          (UDPConnection_func_write exampleExt 1 16 true true 0
            (UDPConnection_func_close 1 boundWorld).2).2) :=
  ⟨(not_bound_after_close exampleExt 1 boundWorld _ [.write 16 true true 0]
      (by decide) rfl).1 9 0,
   (not_bound_after_close exampleExt 1 boundWorld _ [.write 16 true true 0]
      (by decide) rfl).2 0 exampleSender⟩

end PyUV
